import Mathlib

/-!
Verification of the command-dispatch and request-construction layer of the
globus-timer CLI (src/timer_cli/main.py).

The development shallowly embeds the Python source: the JSON codec
(json.loads and json.dumps of the standard library, C scanner semantics),
the URL parser (urllib.parse.urlparse and geturl of the Python versions
contemporary with the repository), UUID text parsing (uuid.UUID), and the
three commands submit / list / status together with the usage-on-error
command wrapper.  Stateful behaviour (process output, exit, the single
HTTP call) is embedded as explicit data: a run of a command produces the
list of issued HTTP requests, the list of stream writes, and a
termination mode.
-/

namespace timer_cli

set_option maxRecDepth 32768

/-! ## Python string primitives -/

/-- Characters counted as whitespace by the JSON scanner: space, tab,
newline, carriage return. -/
def jsonWs (c : Char) : Bool :=
  c = ' ' || c = '\t' || c = '\n' || c = '\r'

/-- Index of the first non-whitespace character at or after position `i`
(the WHITESPACE regex of json.decoder).  Positions beyond the end of the
input stay put, matching how the regex clamps to the input length. -/
def skipWs (s : List Char) (i : Nat) : Nat :=
  i + ((s.drop i).takeWhile jsonWs).length

/-- ASCII whitespace stripped by Python str.strip with no argument
(the model covers the ASCII part of the Python whitespace set; no input
in this development carries non-ASCII whitespace). -/
def pyWs (c : Char) : Bool :=
  c = ' ' || c = '\t' || c = '\n' || c = '\r' || c = '\x0b' || c = '\x0c'

/-- Python str.lstrip with an explicit character set: drop leading
characters that belong to the set. -/
def lstripSet (cs : List Char) (set : List Char) : List Char :=
  cs.dropWhile (fun c => c ∈ set)

/-- Python str.strip with an explicit character set: drop the characters
of the set from both ends. -/
def stripSet (cs : List Char) (set : List Char) : List Char :=
  (lstripSet (lstripSet cs set).reverse set).reverse

/-- Python str.strip with no argument (whitespace from both ends). -/
def stripWs (cs : List Char) : List Char :=
  ((cs.dropWhile pyWs).reverse.dropWhile pyWs).reverse

/-- Slice s.take from position `i`, matching the Python slice s[i : i+n]. -/
def sliceAt (s : List Char) (i n : Nat) : List Char :=
  (s.drop i).take n

/-- Python test s[idx : idx+len(lit)] == lit. -/
def startsWithAt (s : List Char) (idx : Nat) (lit : List Char) : Bool :=
  sliceAt s idx lit.length = lit

/-- Python str.replace: replace the non-overlapping occurrences of old,
scanning left to right; the replacement text is not rescanned.  The fuel
strictly exceeds the input length, and every use below has a non-empty
old, so it never runs out. -/
def pyReplaceAux : Nat → List Char → List Char → List Char → List Char
  | 0, s, _, _ => s
  | fuel + 1, s, old, new =>
    match s with
    | [] => []
    | c :: rest =>
      if old ≠ [] && old.isPrefixOf (c :: rest) then
        new ++ pyReplaceAux fuel ((c :: rest).drop old.length) old new
      else c :: pyReplaceAux fuel rest old new

/-- Python str.replace on strings. -/
def pyReplace (s old new : String) : String :=
  String.mk (pyReplaceAux (s.toList.length + 1) s.toList old.toList new.toList)

/-! ## JSON values

Python json.loads maps objects to dict, arrays to list, strings to str,
integer literals to int, real literals to float, and accepts the
non-standard constants NaN, Infinity and -Infinity (allow_nan default).
Real literals are kept here as their source token; Python instead stores
float(token), so two distinct tokens of one real value compare equal in
Python but not in this model.  No theorem below involves a real literal.
Lone-surrogate escape sequences (representable in Python str, not in
Lean String) are mapped to the null character; no theorem involves them. -/

inductive Json where
  | null : Json
  | bool : Bool → Json
  | int : Int → Json
  | float : String → Json
  | nan : Json
  | inf : Bool → Json
  | str : String → Json
  | arr : List Json → Json
  | obj : List (String × Json) → Json
deriving Repr

/-- Python dict built from a key/value pair list: a repeated key keeps its
first position and takes the last value. -/
def pyDict (ps : List (String × Json)) : List (String × Json) :=
  ps.foldl (fun acc kv =>
    if acc.any (fun e => e.1 = kv.1) then
      acc.map (fun e => if e.1 = kv.1 then (e.1, kv.2) else e)
    else acc ++ [kv]) []

/-! ## JSON decoding (json.loads, C scanner semantics)

A decode error is the pair of the unformatted message and the character
position, exactly the msg and pos attributes of JSONDecodeError. -/

abbrev JErr := String × Nat

/-- Lookup table for single-character backslash escapes in JSON strings. -/
def escTable (c : Char) : Option Char :=
  match c with
  | '"' => some '"'
  | '\\' => some '\\'
  | '/' => some '/'
  | 'b' => some '\x08'
  | 'f' => some '\x0c'
  | 'n' => some '\n'
  | 'r' => some '\r'
  | 't' => some '\t'
  | _ => none

def isHexDigitChar (c : Char) : Bool :=
  c.isDigit || ('a' ≤ c && c ≤ 'f') || ('A' ≤ c && c ≤ 'F')

def hexVal (c : Char) : Nat :=
  if c.isDigit then c.toNat - 48
  else if 'a' ≤ c then c.toNat - 87
  else c.toNat - 55

/-- Read four strict hexadecimal digits at position `i` (the C scanner of
the json module accepts exactly [0-9a-fA-F] here). -/
def hex4At (s : List Char) (i : Nat) : Option Nat :=
  match s[i]?, s[i+1]?, s[i+2]?, s[i+3]? with
  | some a, some b, some c, some d =>
    if isHexDigitChar a && isHexDigitChar b && isHexDigitChar c && isHexDigitChar d then
      some (((hexVal a * 16 + hexVal b) * 16 + hexVal c) * 16 + hexVal d)
    else none
  | _, _, _, _ => none

/-- scanstring: decode a JSON string literal.  `begin_` is the index of
the opening quote, `i` the current scan position, `acc` the decoded
characters in reverse.  Error messages and positions follow the C
scanner: a control character or a bad simple escape is reported at its
own index, a bad \uXXXX escape at the index of the u. -/
def scanStringAux : Nat → List Char → Nat → Nat → List Char →
    Except JErr (String × Nat)
  | 0, _, begin_, _, _ => .error ("Unterminated string starting at", begin_)
  | fuel + 1, s, begin_, i, acc =>
    match s[i]? with
    | none => .error ("Unterminated string starting at", begin_)
    | some c =>
      if c = '"' then .ok (String.mk acc.reverse, i + 1)
      else if c = '\\' then
        match s[i+1]? with
        | none => .error ("Unterminated string starting at", begin_)
        | some e =>
          if e = 'u' then
            match hex4At s (i+2) with
            | none => .error ("Invalid \\uXXXX escape", i + 1)
            | some uni =>
              if 0xd800 ≤ uni && uni ≤ 0xdbff && s[i+6]? = some '\\' &&
                  s[i+7]? = some 'u' then
                match hex4At s (i+8) with
                | none => .error ("Invalid \\uXXXX escape", i + 7)
                | some uni2 =>
                  if 0xdc00 ≤ uni2 && uni2 ≤ 0xdfff then
                    scanStringAux fuel s begin_ (i+12)
                      (Char.ofNat (0x10000 + ((uni - 0xd800) * 0x400 + (uni2 - 0xdc00))) :: acc)
                  else
                    scanStringAux fuel s begin_ (i+6) (Char.ofNat uni :: acc)
              else
                scanStringAux fuel s begin_ (i+6) (Char.ofNat uni :: acc)
          else
            match escTable e with
            | some ch => scanStringAux fuel s begin_ (i+2) (ch :: acc)
            | none => .error ("Invalid \\escape", i)
      else if c.toNat < 0x20 then .error ("Invalid control character at", i)
      else scanStringAux fuel s begin_ (i+1) (c :: acc)

/-- scanstring entry point: `i` is the index just after the opening
quote.  The internal fuel strictly exceeds the number of remaining
characters, so it never runs out. -/
def scanString (s : List Char) (i : Nat) : Except JErr (String × Nat) :=
  scanStringAux (s.length + 1) s (i - 1) i []

/-- Length of the run of decimal digits starting at position `i`. -/
def digitRun (s : List Char) (i : Nat) : Nat :=
  ((s.drop i).takeWhile Char.isDigit).length

/-- Decimal integer value of a token with an optional leading minus sign
(Python int applied to the integer part of a JSON number). -/
def pyIntDec (tok : List Char) : Int :=
  match tok with
  | '-' :: rest => -(rest.foldl (fun a c => a * 10 + Int.ofNat (c.toNat - 48)) (0 : Int))
  | _ => tok.foldl (fun a c => a * 10 + Int.ofNat (c.toNat - 48)) (0 : Int)

/-- NUMBER_RE of json.scanner matched at position `idx`:
an optional minus sign, then 0 or a nonzero-led digit run, then an
optional fraction and an optional exponent.  Integer-only matches decode
through int, others are kept as their float token. -/
def matchNumber (s : List Char) (idx : Nat) : Option (Json × Nat) :=
  let i0 := if s[idx]? = some '-' then idx + 1 else idx
  let intEnd? : Option Nat :=
    match s[i0]? with
    | some c =>
      if c = '0' then some (i0 + 1)
      else if c.isDigit then some (i0 + digitRun s i0)
      else none
    | none => none
  match intEnd? with
  | none => none
  | some intEnd =>
    let fracEnd :=
      if s[intEnd]? = some '.' && 0 < digitRun s (intEnd + 1) then
        intEnd + 1 + digitRun s (intEnd + 1)
      else intEnd
    let expEnd :=
      match s[fracEnd]? with
      | some c =>
        if c = 'e' || c = 'E' then
          let j := if s[fracEnd+1]? = some '+' || s[fracEnd+1]? = some '-' then
            fracEnd + 2 else fracEnd + 1
          if 0 < digitRun s j then j + digitRun s j else fracEnd
        else fracEnd
      | none => fracEnd
    let tok := sliceAt s idx (expEnd - idx)
    if fracEnd = intEnd && expEnd = fracEnd then
      some (Json.int (pyIntDec tok), expEnd)
    else
      some (Json.float (String.mk tok), expEnd)

/-- The whitespace look-ahead shared by the object and array parsers:
report the character at `i` after skipping whitespace, together with the
updated position (the try/except IndexError block of json.decoder). -/
def nextNonWs (s : List Char) (i : Nat) : Option Char × Nat :=
  match s[i]? with
  | none => (none, i)
  | some c =>
    if jsonWs c then
      let j := skipWs s (i+1)
      (s[j]?, j)
  else (some c, i)

mutual

/-- _scan_once of json.scanner: dispatch on the character at `idx`.
The StopIteration of the Python scanner is already rendered here as the
"Expecting value" error every caller converts it to.  `fuel` bounds the
recursion depth; the entry point supplies more fuel than any input of
its length can consume. -/
def scanOnce (fuel : Nat) (s : List Char) (idx : Nat) : Except JErr (Json × Nat) :=
  match fuel with
  | 0 => .error ("Expecting value", idx)
  | fuel + 1 =>
    match s[idx]? with
    | none => .error ("Expecting value", idx)
    | some c =>
      if c = '"' then
        match scanString s (idx + 1) with
        | .error e => .error e
        | .ok (st, e) => .ok (Json.str st, e)
      else if c = '\x7b' then parseJObject fuel s (idx + 1)
      else if c = '[' then parseJArray fuel s (idx + 1)
      else if c = 'n' && startsWithAt s idx "null".toList then .ok (Json.null, idx + 4)
      else if c = 't' && startsWithAt s idx "true".toList then .ok (Json.bool true, idx + 4)
      else if c = 'f' && startsWithAt s idx "false".toList then .ok (Json.bool false, idx + 5)
      else
        match matchNumber s idx with
        | some r => .ok r
        | none =>
          if c = 'N' && startsWithAt s idx "NaN".toList then .ok (Json.nan, idx + 3)
          else if c = 'I' && startsWithAt s idx "Infinity".toList then
            .ok (Json.inf false, idx + 8)
          else if c = '-' && startsWithAt s idx "-Infinity".toList then
            .ok (Json.inf true, idx + 9)
          else .error ("Expecting value", idx)
termination_by structural fuel

/-- JSONObject of json.decoder, entered just after the opening brace:
either an empty object, or a quoted property name that starts the
member loop. -/
def parseJObject (fuel : Nat) (s : List Char) (end_ : Nat) : Except JErr (Json × Nat) :=
  match fuel with
  | 0 => .error ("Expecting value", end_)
  | fuel + 1 =>
    let pe : Option Char × Nat :=
      match s[end_]? with
      | none => (none, end_)
      | some c =>
        if c ≠ '"' && jsonWs c then
          let j := skipWs s end_
          (s[j]?, j)
        else (some c, end_)
    if pe.1 = some '"' then parseJObjectLoop fuel s (pe.2 + 1) []
    else if pe.1 = some '\x7d' then .ok (Json.obj [], pe.2 + 1)
    else .error ("Expecting property name enclosed in double quotes", pe.2)
termination_by structural fuel

/-- Member loop of JSONObject: scan a key (the position is just after its
opening quote), a colon, a value, then either a closing brace or a comma
and the next quoted key. -/
def parseJObjectLoop (fuel : Nat) (s : List Char) (end_ : Nat)
    (acc : List (String × Json)) : Except JErr (Json × Nat) :=
  match fuel with
  | 0 => .error ("Expecting value", end_)
  | fuel + 1 =>
    match scanString s end_ with
    | .error e => .error e
    | .ok (key, e2) =>
      let e3 := if s[e2]? = some ':' then e2 else skipWs s e2
      if s[e3]? ≠ some ':' then .error ("Expecting \x27:\x27 delimiter", e3)
      else
        let e4 := skipWs s (e3 + 1)
        match scanOnce fuel s e4 with
        | .error e => .error e
        | .ok (value, e5) =>
          let acc := acc ++ [(key, value)]
          let ne := nextNonWs s e5
          let e7 := ne.2 + 1
          if ne.1 = some '\x7d' then .ok (Json.obj (pyDict acc), e7)
          else if ne.1 ≠ some ',' then .error ("Expecting \x27,\x27 delimiter", e7 - 1)
          else
            let e8 := skipWs s e7
            let e9 := e8 + 1
            if s[e8]? = some '"' then parseJObjectLoop fuel s e9 acc
            else .error ("Expecting property name enclosed in double quotes", e9 - 1)
termination_by structural fuel

/-- JSONArray of json.decoder, entered just after the opening bracket. -/
def parseJArray (fuel : Nat) (s : List Char) (end_ : Nat) : Except JErr (Json × Nat) :=
  match fuel with
  | 0 => .error ("Expecting value", end_)
  | fuel + 1 =>
    let pe : Option Char × Nat :=
      match s[end_]? with
      | none => (none, s.length)
      | some c =>
        if jsonWs c then
          let j := skipWs s (end_ + 1)
          (s[j]?, j)
        else (some c, end_)
    if pe.1 = some ']' then .ok (Json.arr [], pe.2 + 1)
    else parseJArrayLoop fuel s pe.2 []
termination_by structural fuel

/-- Element loop of JSONArray: scan a value, then either a closing
bracket or a comma and the next element. -/
def parseJArrayLoop (fuel : Nat) (s : List Char) (end_ : Nat) (acc : List Json) :
    Except JErr (Json × Nat) :=
  match fuel with
  | 0 => .error ("Expecting value", end_)
  | fuel + 1 =>
    match scanOnce fuel s end_ with
    | .error e => .error e
    | .ok (value, e5) =>
      let acc := acc ++ [value]
      let ne :=
        match s[e5]? with
        | none => (none, s.length)
        | some c =>
          if jsonWs c then
            let j := skipWs s (e5 + 1)
            (s[j]?, j)
          else (some c, e5)
      let e7 := ne.2 + 1
      if ne.1 = some ']' then .ok (Json.arr acc, e7)
      else if ne.1 ≠ some ',' then .error ("Expecting \x27,\x27 delimiter", e7 - 1)
      else parseJArrayLoop fuel s (skipWs s e7) acc
termination_by structural fuel

end

/-- JSONDecoder.decode: skip leading whitespace, scan one value, skip
trailing whitespace, and require the input to be exhausted.  The fuel
passed to the scanner strictly exceeds the call depth reachable on an
input of this length (every nesting step and every member consumes at
least one character). -/
def jsonDecode (s : List Char) : Except JErr Json :=
  let idx := skipWs s 0
  match scanOnce (8 * (s.length + 2)) s idx with
  | .error e => .error e
  | .ok (obj, end1) =>
    let end2 := skipWs s end1
    if end2 ≠ s.length then .error ("Extra data", end2)
    else .ok obj

/-- json.loads on a Python str. -/
def jsonLoads (s : String) : Except JErr Json :=
  jsonDecode s.toList

/-- The str() rendering of a JSONDecodeError: message, line, column and
character position, with line and column derived from the document text
exactly as in JSONDecodeError.__init__. -/
def jsonErrStr (msg : String) (doc : String) (pos : Nat) : String :=
  let d := doc.toList.take pos
  let lineno := (d.filter (fun c => c = '\n')).length + 1
  let colno :=
    match d.reverse.findIdx? (fun c => c = '\n') with
    | some k => k + 1
    | none => pos + 1
  msg ++ ": line " ++ toString lineno ++ " column " ++ toString colno ++
    " (char " ++ toString pos ++ ")"

/-! ## JSON encoding (json.dumps with its default options) -/

/-- Lowercase hexadecimal digit. -/
def hexDigitChar (n : Nat) : Char :=
  "0123456789abcdef".toList.getD n '0'

/-- Four-digit lowercase hexadecimal rendering used by \uXXXX escapes. -/
def uEscape (n : Nat) : String :=
  String.mk ['\\', 'u', hexDigitChar (n / 4096 % 16), hexDigitChar (n / 256 % 16),
    hexDigitChar (n / 16 % 16), hexDigitChar (n % 16)]

/-- Character encoding of py_encode_basestring_ascii (ensure_ascii is the
default): quote and backslash get simple escapes, the named control
characters their short escapes, every other character outside the
printable ASCII range a \uXXXX escape, with a surrogate pair beyond the
basic plane. -/
def encodeChar (c : Char) : String :=
  if c = '"' then "\\\""
  else if c = '\\' then "\\\\"
  else if c = '\x08' then "\\b"
  else if c = '\t' then "\\t"
  else if c = '\n' then "\\n"
  else if c = '\x0c' then "\\f"
  else if c = '\r' then "\\r"
  else if c.toNat < 0x20 || 0x7e < c.toNat then
    if 0xffff < c.toNat then
      let v := c.toNat - 0x10000
      uEscape (0xd800 + v / 0x400) ++ uEscape (0xdc00 + v % 0x400)
    else uEscape c.toNat
  else String.singleton c

/-- JSON string literal encoding. -/
def encodeString (s : String) : String :=
  "\"" ++ String.join (s.toList.map encodeChar) ++ "\""

mutual

/-- json.dumps with default arguments: item separator comma-space, key
separator colon-space, no indent, no key sorting.  Integers render as
their decimal text like Python repr; a real literal is re-emitted as its
source token (Python instead prints repr of the parsed float — no
theorem below serializes a real literal). -/
def dumps : Json → String
  | .null => "null"
  | .bool true => "true"
  | .bool false => "false"
  | .int n => toString n
  | .float tok => tok
  | .nan => "NaN"
  | .inf true => "-Infinity"
  | .inf false => "Infinity"
  | .str s => encodeString s
  | .arr xs => "[" ++ String.intercalate ", " (dumpsList xs) ++ "]"
  | .obj ps => "\x7b" ++ String.intercalate ", " (dumpsPairs ps) ++ "\x7d"

def dumpsList : List Json → List String
  | [] => []
  | x :: xs => dumps x :: dumpsList xs

def dumpsPairs : List (String × Json) → List String
  | [] => []
  | (k, v) :: ps => (encodeString k ++ ": " ++ dumps v) :: dumpsPairs ps

end

/-! ## uuid.UUID

The constructor called with the hex argument: remove every occurrence of
the texts urn: and uuid:, strip curly braces from both ends, remove every
hyphen, require exactly 32 remaining characters, and read them through
int(text, 16); the resulting value must lie in the 128-bit range. -/

/-- Digits with single underscores between them (and one optionally right
after a base prefix), as accepted by Python int parsing after the prefix. -/
def hexDigitsUnderscore : List Char → Bool
  | [] => false
  | [c] => isHexDigitChar c
  | c :: '_' :: rest => isHexDigitChar c && rest ≠ [] && hexDigitsUnderscore rest
  | c :: rest => isHexDigitChar c && hexDigitsUnderscore rest

/-- Hexadecimal value of a digit string, ignoring underscores. -/
def hexValOfDigits (cs : List Char) : Nat :=
  cs.foldl (fun a c => if c = '_' then a else a * 16 + hexVal c) 0

/-- Python int(text, 16): optional surrounding whitespace, an optional
sign, an optional 0x or 0X prefix (an underscore may follow it), then
hexadecimal digits with single underscores between digits.  The model
covers the ASCII digit forms. -/
def pyIntBase16 (text : String) : Option Int :=
  let cs := stripWs text.toList
  let signed : Bool × List Char :=
    match cs with
    | '+' :: rest => (false, rest)
    | '-' :: rest => (true, rest)
    | _ => (false, cs)
  let body : Option (List Char) :=
    match signed.2 with
    | '0' :: 'x' :: rest => some (match rest with | '_' :: r2 => r2 | _ => rest)
    | '0' :: 'X' :: rest => some (match rest with | '_' :: r2 => r2 | _ => rest)
    | other => some other
  match body with
  | none => none
  | some ds =>
    if hexDigitsUnderscore ds then
      let v : Int := Int.ofNat (hexValOfDigits ds)
      some (if signed.1 then -v else v)
    else none

/-- uuid.UUID carries only its 128-bit integer value. -/
structure UUID where
  int : Nat
deriving DecidableEq, Repr

/-- Text acceptance of uuid.UUID(hex): the replacements and strips of the
constructor, the 32-character length check, the int(text, 16) read, and
the 128-bit range check.  Any failure raises ValueError, collapsed here
to none. -/
def pyUUIDParse (text : String) : Option UUID :=
  let h1 := pyReplace (pyReplace text "urn:" "") "uuid:" ""
  let h2 := String.mk (stripSet h1.toList ['\x7b', '\x7d'])
  let h3 := pyReplace h2 "-" ""
  if h3.toList.length ≠ 32 then none
  else
    match pyIntBase16 h3 with
    | none => none
    | some v => if 0 ≤ v ∧ v < 2 ^ 128 then some ⟨v.toNat⟩ else none

/-- The percent-032x rendering of the value: 32 lowercase hexadecimal
digits, most significant first (the value is below 2 to the 128 by the
constructor, so no truncation arises). -/
def hex32 (n : Nat) : List Char :=
  (List.range 32).map (fun i => hexDigitChar (n / 16 ^ (31 - i) % 16))

/-- str() of a UUID: the 32 hex digits split 8-4-4-4-12 by hyphens. -/
def UUID.str (u : UUID) : String :=
  let h := hex32 u.int
  String.mk (h.take 8 ++ '-' :: (h.drop 8).take 4 ++ '-' :: (h.drop 12).take 4 ++
    '-' :: (h.drop 16).take 4 ++ '-' :: h.drop 20)

/-! ## urllib.parse

Modelled on the urlsplit / urlparse / urlunparse of the Python versions
contemporary with the repository (3.6 to 3.8): no WHATWG control-byte
stripping, no requirement that a scheme start with a letter, and no
validation of a fully bracketed host (all added to later Pythons).  The
NFKC guard on non-ASCII authorities is omitted; no theorem below uses a
non-ASCII authority.  The mismatched-bracket check, identical in every
Python 3 version, is modelled: it raises ValueError. -/

/-- Characters permitted in a URL scheme. -/
def scheme_chars : List Char :=
  "abcdefghijklmnopqrstuvwxyzABCDEFGHIJKLMNOPQRSTUVWXYZ0123456789+-.".toList

/-- Schemes whose path may carry a semicolon parameter section. -/
def uses_params : List String :=
  ["", "ftp", "hdl", "prospero", "http", "imap", "https", "shttp", "rtsp",
   "rtspu", "sip", "sips", "mms", "sftp", "tel"]

structure SplitResult where
  scheme : String
  netloc : String
  path : String
  query : String
  fragment : String
deriving DecidableEq, Repr

structure ParseResult where
  scheme : String
  netloc : String
  path : String
  params : String
  query : String
  fragment : String
deriving DecidableEq, Repr

/-- _splitnetloc: the authority runs from `start` to the first slash,
question mark or hash sign. -/
def splitnetloc (url : List Char) (start : Nat) : List Char × List Char :=
  let rest := url.drop start
  let delim := (rest.findIdx? (fun c => c = '/' || c = '?' || c = '#')).getD rest.length
  (rest.take delim, rest.drop delim)

/-- Split a character list at the first occurrence of `c`; the character
itself is dropped (str.split with maxsplit one, when the separator
occurs). -/
def splitOnceAt (cs : List Char) (c : Char) : List Char × List Char :=
  match cs.findIdx? (fun x => x = c) with
  | some i => (cs.take i, cs.drop (i + 1))
  | none => (cs, [])

/-- urlsplit: scheme, authority, then fragment and query splits.  A
mismatched square bracket in the authority raises ValueError, returned
as the error case. -/
def urlsplit (url : String) : Except String SplitResult :=
  let u0 := url.toList
  let su : List Char × List Char :=
    match u0.findIdx? (fun c => c = ':') with
    | some i =>
      if 0 < i ∧ (u0.take i).all (fun c => c ∈ scheme_chars) then
        ((u0.take i).map Char.toLower, u0.drop (i + 1))
      else ([], u0)
    | none => ([], u0)
  let afterNetloc : Except String (List Char × List Char) :=
    if su.2.take 2 = ['/', '/'] then
      let nl := splitnetloc su.2 2
      if (('[' ∈ nl.1) ∧ (']' ∉ nl.1)) ∨ ((']' ∈ nl.1) ∧ ('[' ∉ nl.1)) then
        .error "Invalid IPv6 URL"
      else .ok nl
    else .ok ([], su.2)
  match afterNetloc with
  | .error e => .error e
  | .ok (netloc, u1) =>
    let fs := if '#' ∈ u1 then splitOnceAt u1 '#' else (u1, [])
    let qs := if '?' ∈ fs.1 then splitOnceAt fs.1 '?' else (fs.1, [])
    .ok ⟨String.mk su.1, String.mk netloc, String.mk qs.1,
      String.mk qs.2, String.mk fs.2⟩

/-- _splitparams: split the parameter section after the last slash (or
anywhere when the path has no slash). -/
def splitparams (url : List Char) : List Char × List Char :=
  let i : Option Nat :=
    if '/' ∈ url then
      let lastSlash := url.length - 1 - ((url.reverse.findIdx? (fun c => c = '/')).getD 0)
      ((url.drop lastSlash).findIdx? (fun c => c = ';')).map (· + lastSlash)
    else url.findIdx? (fun c => c = ';')
  match i with
  | some k => (url.take k, url.drop (k + 1))
  | none => (url, [])

/-- urlparse: urlsplit plus the parameter split for schemes that use it. -/
def urlparse (url : String) : Except String ParseResult :=
  match urlsplit url with
  | .error e => .error e
  | .ok r =>
    if r.scheme ∈ uses_params ∧ ';' ∈ r.path.toList then
      let pp := splitparams r.path.toList
      .ok ⟨r.scheme, r.netloc, String.mk pp.1, String.mk pp.2, r.query, r.fragment⟩
    else .ok ⟨r.scheme, r.netloc, r.path, "", r.query, r.fragment⟩

/-- urlunsplit of the same Python versions. -/
def urlunsplit (scheme netloc url query fragment : String) : String :=
  let url1 :=
    if netloc ≠ "" ∨ (url ≠ "" ∧ url.toList.take 2 = ['/', '/']) then
      let u := if url ≠ "" ∧ url.toList.take 1 ≠ ['/'] then "/" ++ url else url
      "//" ++ netloc ++ u
    else url
  let url2 := if scheme ≠ "" then scheme ++ ":" ++ url1 else url1
  let url3 := if query ≠ "" then url2 ++ "?" ++ query else url2
  if fragment ≠ "" then url3 ++ "#" ++ fragment else url3

/-- urlunparse: reattach the parameter section, then urlunsplit. -/
def urlunparse (r : ParseResult) : String :=
  let u := if r.params ≠ "" then r.path ++ ";" ++ r.params else r.path
  urlunsplit r.scheme r.netloc u r.query r.fragment

/-- geturl() of a ParseResult. -/
def ParseResult.geturl (r : ParseResult) : String :=
  urlunparse r

/-! ## Process-effect model

A command run is recorded as data: the HTTP requests issued, the writes
to the standard streams (each write carries the exact text emitted;
click.echo appends one newline to its argument), the number of calls to
the external token provider, and the termination mode. -/

inductive Stream where
  | stdout : Stream
  | stderr : Stream
deriving DecidableEq, Repr

/-- How the process run ends: a normal return from the command callback
(the click entry point then exits with status zero), an explicit exit
with a code, or an exception nobody catches (the interpreter prints a
traceback and exits with status one). -/
inductive Term where
  | normal : Term
  | sysExit : Nat → Term
  | uncaught : String → Term
deriving DecidableEq, Repr

/-- The process exit status produced by each termination mode. -/
def Term.exitStatus : Term → Nat
  | .normal => 0
  | .sysExit c => c
  | .uncaught _ => 1

structure HttpResponse where
  status_code : Nat
  body : String
deriving DecidableEq, Repr

/-- Outcome of the single requests.post / requests.get call: either a
completed response, or a requests.RequestException carrying a
description (connection failure, timeout, DNS failure). -/
inductive Transport where
  | response : HttpResponse → Transport
  | exception : String → Transport
deriving DecidableEq, Repr

structure HttpRequest where
  method : String
  url : String
  headers : List (String × String)
  jsonBody : Option Json
  timeout : Nat
deriving Repr

structure RunResult where
  requests : List HttpRequest
  outputs : List (Stream × String)
  tokenFetches : Nat
  term : Term
deriving Repr

/-- Seconds to wait before giving up on requests to the API. -/
def TIMEOUT : Nat := 10

/-- The jobs-collection endpoint. -/
def jobs_url : String := "https://sandbox.timer.automate.globus.org/jobs/"

/-- get_headers: the token obtained from the external provider
(timer_cli.auth, outside this file) wrapped as a bearer authorization
header.  The provider is represented by the token value it returns. -/
def get_headers (token : String) : List (String × String) :=
  [("Authorization", "Bearer " ++ token)]

/-- show_response: a diagnostic line on the error stream when the status
code is at least 400, then the JSON body re-serialized to standard
output.  response.json() sits outside every except clause in the source,
so a body that is not valid JSON raises an uncaught JSONDecodeError. -/
def show_response (response : HttpResponse) : List (Stream × String) × Term :=
  let diag : List (Stream × String) :=
    if 400 ≤ response.status_code then
      [(Stream.stderr, "got response code " ++ toString response.status_code ++ "\n")]
    else []
  match jsonLoads response.body with
  | .ok j => (diag ++ [(Stream.stdout, dumps j ++ "\n")], Term.normal)
  | .error e => (diag, Term.uncaught (jsonErrStr e.1 response.body e.2))

/-- handle_requests_exception: one diagnostic line on the error stream,
then sys.exit(1). -/
def handle_requests_exception (e : String) : List (Stream × String) × Term :=
  ([(Stream.stderr, "error in request: " ++ e ++ "\n")], Term.sysExit 1)

/-! ## The usage-on-error command wrapper

Command.make_context catches MissingParameter, BadArgumentUsage,
BadOptionUsage and BadParameter; each handler clears the cmd attribute,
shows the error, echoes a blank line, and calls show_usage.  show_usage
echoes the help text, options and epilog of the command, then calls
Context.exit() — whose code argument defaults to zero — so the process
terminates with exit status 0; the sys.exit(2) after show_usage and the
sys.exit(e.exit_code) after the second handler are never reached. -/

/-- The usage-relevant text of a click command: the Usage line of its
context, and the sections the formatter collects in show_usage.  The
exact formatter layout is opaque to every theorem below. -/
structure CommandUsage where
  usageLine : String
  helpText : String
  optionsText : String
  epilogText : String
deriving DecidableEq, Repr

/-- The text show_usage echoes: help text, options and epilog as
accumulated by the formatter, with trailing newlines stripped. -/
def CommandUsage.usageText (c : CommandUsage) : String :=
  String.mk ((c.helpText ++ c.optionsText ++ c.epilogText).toList.reverse.dropWhile
    (fun ch => ch = '\n')).reverse

/-- The writes produced when the wrapper intercepts a parse failure:
UsageError.show with the cmd attribute cleared prints the context usage
line and the error message to the error stream; the wrapper then echoes
a blank line and the full usage text to standard output. -/
def usage_failure_output (c : CommandUsage) (message : String) : List (Stream × String) :=
  [(Stream.stderr, c.usageLine ++ "\n\n"),
   (Stream.stderr, "Error: " ++ message ++ "\n"),
   (Stream.stdout, "\n"),
   (Stream.stdout, c.usageText ++ "\n")]

/-- Observable behaviour of Command.make_context on an intercepted
argument-parsing failure: the error is shown, a blank line and the usage
text are echoed, and Context.exit() ends the process with status 0 (its
default code); the trailing sys.exit calls of the source are dead code. -/
def make_context_failure (c : CommandUsage) (message : String) : RunResult :=
  { requests := [], outputs := usage_failure_output c message,
    tokenFetches := 0, term := Term.sysExit 0 }

/-- Usage text of the submit command, assembled from its option
declarations in the source. -/
def submit_usage : CommandUsage :=
  { usageLine := "Usage: job submit [OPTIONS]",
    helpText := "  Submit a new job.\n\n",
    optionsText := "Options:\n  --name TEXT           name to identify this job (not necessarily unique)\n  --start [%Y-%m-%d|%Y-%m-%dT%H:%M:%S|%Y-%m-%d %H:%M:%S]\n                        start time for the job (defaults to current time)\n  --interval INTEGER    interval in seconds at which the job should run\n  --action-url URL      The URL for the action to run\n  --action-body TEXT    request JSON body to send to the action provider on job execution\n",
    epilogText := "" }

/-- Usage text of the list command. -/
def list_usage : CommandUsage :=
  { usageLine := "Usage: job list [OPTIONS]",
    helpText := "  List submitted jobs.\n\n",
    optionsText := "Options:\n",
    epilogText := "" }

/-- Usage text of the status command. -/
def status_usage : CommandUsage :=
  { usageLine := "Usage: job status [OPTIONS] JOB_ID",
    helpText := "  Return the status of the job with the given ID.\n\n",
    optionsText := "Options:\n",
    epilogText := "" }

/-! ## URL parameter type -/

/-- Result of URL.convert on a raw string: the ParseResult on success, a
BadParameter (raised through ParamType.fail) with its message on
validation failure, or an uncaught ValueError escaping from urlparse. -/
inductive ConvertResult where
  | ok : ParseResult → ConvertResult
  | failed : String → ConvertResult
  | valueError : String → ConvertResult
deriving DecidableEq, Repr

/-- URL.convert: parse the value, fail on an empty authority, fail on a
scheme other than http or https, otherwise return the parse result. -/
def URL.convert (value : String) : ConvertResult :=
  match urlparse value with
  | .error e => ConvertResult.valueError e
  | .ok r =>
    if r.netloc = "" then ConvertResult.failed "incomplete URL"
    else if r.scheme ≠ "http" ∧ r.scheme ≠ "https" then
      ConvertResult.failed
        ("invalid URL scheme (" ++ r.scheme ++ "). Only HTTP URLs are allowed")
    else ConvertResult.ok r

/-! ## Command bodies

Datetimes are represented by their ISO-8601 renderings: the optional
start option carries the isoformat text of its parsed value, and now is
the isoformat text of datetime.now() at invocation time. -/

/-- Line 165 of the source: one str.strip of apostrophes, then one of
double quotes (each strips every such character from both ends). -/
def pyStripQuotes (s : String) : String :=
  String.mk (stripSet (stripSet s.toList ['\x27']) ['"'])

/-- The request dictionary submit assembles. -/
def submit_req_json (name start : String) (interval : Int)
    (callback_url : String) (callback_body : Json) : Json :=
  Json.obj [("name", Json.str name), ("start", Json.str start),
    ("interval", Json.int interval), ("callback_url", Json.str callback_url),
    ("callback_body", callback_body)]

/-- The submit command body, after argument parsing has succeeded.  Line
165 computes a quote-stripped copy of action_body that line 166
immediately overwrites: json.loads receives the original action_body
text.  A parse failure raises BadOptionUsage, which click renders as an
Error line on the error stream and an exit with the UsageError code 2;
no request is issued and the token provider is never called. -/
def submit (name : String) (start : Option String) (now : String)
    (interval : Int) (action_url : ParseResult) (action_body : String)
    (token : String) (transport : Transport) : RunResult :=
  match jsonLoads action_body with
  | .error e =>
    { requests := [],
      outputs := [(Stream.stderr,
        "Error: --action-body must parse into valid JSON; got error: " ++
          jsonErrStr e.1 action_body e.2 ++ "\n")],
      tokenFetches := 0, term := Term.sysExit 2 }
  | .ok callback_body =>
    let startIso := start.getD now
    let callback_url := action_url.geturl
    let req_json := submit_req_json name startIso interval callback_url callback_body
    let headers := get_headers token
    let req : HttpRequest :=
      { method := "POST", url := jobs_url, headers := headers,
        jsonBody := some req_json, timeout := TIMEOUT }
    match transport with
    | Transport.exception e =>
      let ot := handle_requests_exception e
      { requests := [req], outputs := ot.1, tokenFetches := 1, term := ot.2 }
    | Transport.response r =>
      let ot := show_response r
      { requests := [req], outputs := ot.1, tokenFetches := 1, term := ot.2 }

/-- The list command body. -/
def list (token : String) (transport : Transport) : RunResult :=
  let headers := get_headers token
  let req : HttpRequest :=
    { method := "GET", url := jobs_url, headers := headers,
      jsonBody := none, timeout := TIMEOUT }
  match transport with
  | Transport.exception e =>
    let ot := handle_requests_exception e
    { requests := [req], outputs := ot.1, tokenFetches := 1, term := ot.2 }
  | Transport.response r =>
    let ot := show_response r
    { requests := [req], outputs := ot.1, tokenFetches := 1, term := ot.2 }

/-- The status command body, after its argument parsed as a UUID: the
job identifier is interpolated into the endpoint path through str(). -/
def status (job_id : UUID) (token : String) (transport : Transport) : RunResult :=
  let headers := get_headers token
  let req : HttpRequest :=
    { method := "GET", url := jobs_url ++ job_id.str, headers := headers,
      jsonBody := none, timeout := TIMEOUT }
  match transport with
  | Transport.exception e =>
    let ot := handle_requests_exception e
    { requests := [req], outputs := ot.1, tokenFetches := 1, term := ot.2 }
  | Transport.response r =>
    let ot := show_response r
    { requests := [req], outputs := ot.1, tokenFetches := 1, term := ot.2 }

/-- The message of the BadParameter raised when the conversion callable
of the JOB_ID argument (uuid.UUID through FuncParamType) raises
ValueError; the framework prefixes the failing value with the parameter
hint. -/
def job_id_bad_value_message (text : String) : String :=
  "Invalid value for \"JOB_ID\": " ++ text

/-- The status command from its raw argument text: conversion of the
text through uuid.UUID happens while make_context parses arguments, so a
ValueError becomes a BadParameter that the usage-on-error wrapper
intercepts before the command body runs; otherwise the body receives the
parsed UUID. -/
def run_status (job_id_text : String) (token : String) (transport : Transport) :
    RunResult :=
  match pyUUIDParse job_id_text with
  | none => make_context_failure status_usage (job_id_bad_value_message job_id_text)
  | some u => status u token transport

/-- A concrete parsed action URL used by closed instances below. -/
def exampleActionUrl : ParseResult :=
  ⟨"https", "example.org", "/run", "", "", ""⟩

/-! ## Helper lemmas -/

theorem hexDigitChar_mem : ∀ k < 16, hexDigitChar k ∈ "0123456789abcdef".toList := by
  decide

theorem hex32_length (n : Nat) : (hex32 n).length = 32 := by
  simp [hex32]

theorem hex32_mem (n : Nat) : ∀ c ∈ hex32 n, c ∈ "0123456789abcdef".toList := by
  intro c hc
  simp only [hex32, List.mem_map, List.mem_range] at hc
  obtain ⟨i, _, rfl⟩ := hc
  exact hexDigitChar_mem _ (Nat.mod_lt _ (by norm_num))

theorem string_mk_toList (l : List Char) : (String.mk l).toList = l := rfl

/-- Dispatch shape of the three command bodies: request and provider
components of a submit run once the action body has parsed. -/
theorem submit_ok_components (name : String) (start : Option String) (now : String)
    (interval : Int) (action_url : ParseResult) (action_body token : String)
    (cb : Json) (hab : jsonLoads action_body = Except.ok cb) (tr : Transport) :
    (submit name start now interval action_url action_body token tr).requests =
      [{ method := "POST", url := jobs_url, headers := get_headers token, jsonBody := some (submit_req_json name (start.getD now) interval action_url.geturl cb), timeout := TIMEOUT }] ∧
    (submit name start now interval action_url action_body token tr).tokenFetches = 1 := by
  cases tr <;> (unfold submit; rw [hab]; exact ⟨rfl, rfl⟩)

/-- Presenter components of a submit run on a completed response. -/
theorem submit_ok_response (name : String) (start : Option String) (now : String)
    (interval : Int) (action_url : ParseResult) (action_body token : String)
    (cb : Json) (hab : jsonLoads action_body = Except.ok cb) (resp : HttpResponse) :
    (submit name start now interval action_url action_body token
      (Transport.response resp)).outputs = (show_response resp).1 ∧
    (submit name start now interval action_url action_body token
      (Transport.response resp)).term = (show_response resp).2 := by
  unfold submit
  rw [hab]
  exact ⟨rfl, rfl⟩

/-- Presenter components of a submit run on a transport exception. -/
theorem submit_ok_exception (name : String) (start : Option String) (now : String)
    (interval : Int) (action_url : ParseResult) (action_body token : String)
    (cb : Json) (hab : jsonLoads action_body = Except.ok cb) (e : String) :
    (submit name start now interval action_url action_body token
      (Transport.exception e)).outputs =
      [(Stream.stderr, "error in request: " ++ e ++ "\n")] ∧
    (submit name start now interval action_url action_body token
      (Transport.exception e)).term = Term.sysExit 1 := by
  unfold submit
  rw [hab]
  exact ⟨rfl, rfl⟩

/-- Components of a submit run when the action body fails to parse. -/
theorem submit_err_components (name : String) (start : Option String) (now : String)
    (interval : Int) (action_url : ParseResult) (action_body token : String)
    (e : JErr) (hab : jsonLoads action_body = Except.error e) (tr : Transport) :
    submit name start now interval action_url action_body token tr =
      { requests := [],
        outputs := [(Stream.stderr, "Error: --action-body must parse into valid JSON; got error: " ++ jsonErrStr e.1 action_body e.2 ++ "\n")],
        tokenFetches := 0, term := Term.sysExit 2 } := by
  unfold submit
  rw [hab]

/-- Request and provider components of a list run. -/
theorem list_components (token : String) (tr : Transport) :
    (list token tr).requests =
      [{ method := "GET", url := jobs_url, headers := get_headers token, jsonBody := none, timeout := TIMEOUT }] ∧
    (list token tr).tokenFetches = 1 := by
  cases tr <;> exact ⟨rfl, rfl⟩

/-- Presenter components of a list run on a completed response. -/
theorem list_response (token : String) (resp : HttpResponse) :
    (list token (Transport.response resp)).outputs = (show_response resp).1 ∧
    (list token (Transport.response resp)).term = (show_response resp).2 :=
  ⟨rfl, rfl⟩

/-- Presenter components of a list run on a transport exception. -/
theorem list_exception (token : String) (e : String) :
    (list token (Transport.exception e)).outputs =
      [(Stream.stderr, "error in request: " ++ e ++ "\n")] ∧
    (list token (Transport.exception e)).term = Term.sysExit 1 :=
  ⟨rfl, rfl⟩

/-- Request and provider components of a status run on a parsed job
identifier. -/
theorem status_components (u : UUID) (token : String) (tr : Transport) :
    (status u token tr).requests =
      [{ method := "GET", url := jobs_url ++ u.str, headers := get_headers token, jsonBody := none, timeout := TIMEOUT }] ∧
    (status u token tr).tokenFetches = 1 := by
  cases tr <;> exact ⟨rfl, rfl⟩

/-- Presenter components of a status run on a completed response. -/
theorem status_response (u : UUID) (token : String) (resp : HttpResponse) :
    (status u token (Transport.response resp)).outputs = (show_response resp).1 ∧
    (status u token (Transport.response resp)).term = (show_response resp).2 :=
  ⟨rfl, rfl⟩

/-- Presenter components of a status run on a transport exception. -/
theorem status_exception (u : UUID) (token : String) (e : String) :
    (status u token (Transport.exception e)).outputs =
      [(Stream.stderr, "error in request: " ++ e ++ "\n")] ∧
    (status u token (Transport.exception e)).term = Term.sysExit 1 :=
  ⟨rfl, rfl⟩

/-- show_response on a body that parses as JSON. -/
theorem show_response_ok (resp : HttpResponse) (j : Json)
    (hj : jsonLoads resp.body = Except.ok j) :
    show_response resp =
      ((if 400 ≤ resp.status_code then [(Stream.stderr, "got response code " ++ toString resp.status_code ++ "\n")] else []) ++ [(Stream.stdout, dumps j ++ "\n")],
       Term.normal) := by
  unfold show_response
  rw [hj]

/-- show_response on a body that is not valid JSON: the JSONDecodeError
escapes uncaught. -/
theorem show_response_err (resp : HttpResponse) (e : JErr)
    (hj : jsonLoads resp.body = Except.error e) :
    show_response resp =
      ((if 400 ≤ resp.status_code then [(Stream.stderr, "got response code " ++ toString resp.status_code ++ "\n")] else []),
       Term.uncaught (jsonErrStr e.1 resp.body e.2)) := by
  unfold show_response
  rw [hj]

/-! ## Claims -/

/-- C1: the claim states that an intercepted argument-parsing failure
prints the error message, a blank line and the full usage text and then
terminates with a non-zero exit status.  The printing holds, but the
wrapper terminates through Context.exit() with its default code, so the
exit status is 0: evaluated here at the failure of a submit invocation
that omits the required name option.  The sys.exit(2) after show_usage
and the sys.exit(e.exit_code) in the second handler are unreachable. -/
theorem C1_parse_failure_prints_usage_but_exits_zero :
    (make_context_failure submit_usage "Missing option \"--name\".").outputs =
      [(Stream.stderr, submit_usage.usageLine ++ "\n\n"),
       (Stream.stderr, "Error: Missing option \"--name\".\n"),
       (Stream.stdout, "\n"),
       (Stream.stdout, submit_usage.usageText ++ "\n")] ∧
    (make_context_failure submit_usage "Missing option \"--name\".").term =
      Term.sysExit 0 ∧
    Term.exitStatus (make_context_failure submit_usage "Missing option \"--name\".").term = 0 := by
  exact ⟨rfl, rfl, rfl⟩

/-- C2: the claim states that submit strips one layer of surrounding
quote characters from the action body and parses the stripped text.
Line 165 does compute the stripped text, but line 166 overwrites it by
parsing the original text, so an action body of the four characters
quote-brace-brace-quote — whose stripped form is valid JSON — makes
submit fail with BadOptionUsage and issue no request, where the claimed
behaviour would produce a payload whose callback_body is the empty
object. -/
theorem C2_quote_stripping_is_dead_code :
    pyStripQuotes "\x27\x7b\x7d\x27" = "\x7b\x7d" ∧
    jsonLoads (pyStripQuotes "\x27\x7b\x7d\x27") = Except.ok (Json.obj []) ∧
    jsonLoads "\x27\x7b\x7d\x27" = Except.error ("Expecting value", 0) ∧
    (submit "demo" none "2020-01-01T00:00:00" 60 exampleActionUrl "\x27\x7b\x7d\x27"
        "abc" (Transport.response ⟨201, "\x7b\x7d"⟩)).requests = [] ∧
    (submit "demo" none "2020-01-01T00:00:00" 60 exampleActionUrl "\x27\x7b\x7d\x27"
        "abc" (Transport.response ⟨201, "\x7b\x7d"⟩)).term = Term.sysExit 2 := by
  exact ⟨rfl, rfl, rfl, rfl, rfl⟩

/-- C5: a transport-layer exception raised by the single HTTP call of
any of the three commands produces exactly one diagnostic line of the
form error in request: description on the error stream, an exit with
status 1, and no write to standard output. -/
theorem C5_transport_exception_single_line_exit_one
    (e token name now action_body : String) (start : Option String)
    (interval : Int) (action_url : ParseResult) (cb : Json)
    (hab : jsonLoads action_body = Except.ok cb) (u : UUID) :
    ∀ r ∈ [submit name start now interval action_url action_body token
            (Transport.exception e),
          list token (Transport.exception e),
          status u token (Transport.exception e)],
      r.outputs = [(Stream.stderr, "error in request: " ++ e ++ "\n")] ∧
      r.term = Term.sysExit 1 ∧
      Term.exitStatus r.term = 1 ∧
      ∀ s, (Stream.stdout, s) ∉ r.outputs := by
  intro r hr
  have step : r.outputs = [(Stream.stderr, "error in request: " ++ e ++ "\n")] ∧
      r.term = Term.sysExit 1 := by
    simp only [List.mem_cons, List.not_mem_nil, or_false] at hr
    rcases hr with rfl | rfl | rfl
    · exact submit_ok_exception name start now interval action_url action_body
        token cb hab e
    · exact list_exception token e
    · exact status_exception u token e
  refine ⟨step.1, step.2, by rw [step.2]; rfl, ?_⟩
  intro s hs
  rw [step.1] at hs
  simp only [List.mem_singleton, Prod.mk.injEq] at hs
  exact absurd hs.1 (by decide)

/-- C5 witness: the theorem applied to a concrete timeout failure of the
list command. -/
theorem C5_transport_exception_witness :
    jsonLoads "\x7b\x7d" = Except.ok (Json.obj []) ∧
    (list "abc" (Transport.exception "timeout")).outputs =
      [(Stream.stderr, "error in request: timeout\n")] := by
  refine ⟨rfl, ?_⟩
  have h := C5_transport_exception_single_line_exit_one "timeout" "abc" "demo"
    "2020-01-01T00:00:00" "\x7b\x7d" none 60 exampleActionUrl (Json.obj []) rfl ⟨0⟩
  exact (h (list "abc" (Transport.exception "timeout")) (by simp)).1

/-- C3: the claim states that a completed HTTP response whose body is
not valid JSON is reported with a single error-in-request line on the
error stream and exit status 1.  Counterexample: a 200 response with
body oops makes the list command terminate through an uncaught
JSONDecodeError — nothing at all is written through the presenter, in
particular no error-in-request line. -/
theorem C3_malformed_body_counterexample :
    (list "abc" (Transport.response ⟨200, "oops"⟩)).outputs = [] ∧
    (list "abc" (Transport.response ⟨200, "oops"⟩)).term =
      Term.uncaught "Expecting value: line 1 column 1 (char 0)" ∧
    ¬ ∃ msg, (Stream.stderr, msg) ∈
        (list "abc" (Transport.response ⟨200, "oops"⟩)).outputs ∧
      "error in request: ".isPrefixOf msg := by
  refine ⟨rfl, rfl, ?_⟩
  rintro ⟨msg, hm, -⟩
  have h0 : (list "abc" (Transport.response ⟨200, "oops"⟩)).outputs = [] := rfl
  rw [h0] at hm
  exact List.not_mem_nil _ hm

/-- C3 amended: a completed response whose body is not valid JSON makes
the command terminate through the uncaught JSON-decode failure of
response.json() — exit status 1, nothing on standard output, and no
error-in-request line; the only possible error-stream write is the
status-code diagnostic, when the status is at least 400. -/
theorem C3_amended_malformed_body_uncaught (resp_status : Nat) (body : String)
    (e : JErr) (hb : jsonLoads body = Except.error e)
    (name now action_body token : String) (start : Option String) (interval : Int)
    (action_url : ParseResult) (cb : Json)
    (hab : jsonLoads action_body = Except.ok cb) (u : UUID) :
    ∀ r ∈ [submit name start now interval action_url action_body token
            (Transport.response ⟨resp_status, body⟩),
          list token (Transport.response ⟨resp_status, body⟩),
          status u token (Transport.response ⟨resp_status, body⟩)],
      r.term = Term.uncaught (jsonErrStr e.1 body e.2) ∧
      Term.exitStatus r.term = 1 ∧
      r.outputs = (if 400 ≤ resp_status then
        [(Stream.stderr, "got response code " ++ toString resp_status ++ "\n")] else []) ∧
      (∀ s, (Stream.stdout, s) ∉ r.outputs) ∧
      ∀ s, (Stream.stderr, s) ∈ r.outputs →
        s = "got response code " ++ toString resp_status ++ "\n" := by
  intro r hr
  have hs := show_response_err ⟨resp_status, body⟩ e hb
  have step : r.outputs = (if 400 ≤ resp_status then
      [(Stream.stderr, "got response code " ++ toString resp_status ++ "\n")] else []) ∧
      r.term = Term.uncaught (jsonErrStr e.1 body e.2) := by
    simp only [List.mem_cons, List.not_mem_nil, or_false] at hr
    rcases hr with rfl | rfl | rfl
    · obtain ⟨ho, ht⟩ := submit_ok_response name start now interval
        action_url action_body token cb hab ⟨resp_status, body⟩
      rw [hs] at ho ht
      exact ⟨ho, ht⟩
    · obtain ⟨ho, ht⟩ := list_response token ⟨resp_status, body⟩
      rw [hs] at ho ht
      exact ⟨ho, ht⟩
    · obtain ⟨ho, ht⟩ := status_response u token ⟨resp_status, body⟩
      rw [hs] at ho ht
      exact ⟨ho, ht⟩
  refine ⟨step.2, by rw [step.2]; rfl, step.1, ?_, ?_⟩
  · intro s hmem
    rw [step.1] at hmem
    by_cases h4 : 400 ≤ resp_status
    · rw [if_pos h4] at hmem
      simp only [List.mem_singleton, Prod.mk.injEq] at hmem
      exact absurd hmem.1 (by decide)
    · rw [if_neg h4] at hmem
      exact List.not_mem_nil _ hmem
  · intro s hmem
    rw [step.1] at hmem
    by_cases h4 : 400 ≤ resp_status
    · rw [if_pos h4] at hmem
      simp only [List.mem_singleton, Prod.mk.injEq] at hmem
      exact hmem.2
    · rw [if_neg h4] at hmem
      exact absurd hmem (List.not_mem_nil _)

/-- C3 amended witness: the theorem applied to the 200 response with the
invalid body oops received by the list command. -/
theorem C3_amended_witness :
    jsonLoads "oops" = Except.error ("Expecting value", 0) ∧
    (list "abc" (Transport.response ⟨200, "oops"⟩)).term =
      Term.uncaught "Expecting value: line 1 column 1 (char 0)" := by
  refine ⟨rfl, ?_⟩
  have h := C3_amended_malformed_body_uncaught 200 "oops" ("Expecting value", 0) rfl
    "demo" "2020-01-01T00:00:00" "\x7b\x7d" "abc" none 60 exampleActionUrl
    (Json.obj []) rfl ⟨0⟩
  exact (h (list "abc" (Transport.response ⟨200, "oops"⟩)) (by simp)).1

/-- C4: a response with status code at least 400, received by any of the
three commands, produces the diagnostic line got response code N on the
error stream, still prints the compactly re-serialized JSON body to
standard output terminated by a newline, and exits with status 0. -/
theorem C4_error_status_prints_body_exits_zero (resp_status : Nat) (body : String)
    (j : Json) (h4 : 400 ≤ resp_status) (hj : jsonLoads body = Except.ok j)
    (name now action_body token : String) (start : Option String) (interval : Int)
    (action_url : ParseResult) (cb : Json)
    (hab : jsonLoads action_body = Except.ok cb) (u : UUID) :
    ∀ r ∈ [submit name start now interval action_url action_body token
            (Transport.response ⟨resp_status, body⟩),
          list token (Transport.response ⟨resp_status, body⟩),
          status u token (Transport.response ⟨resp_status, body⟩)],
      r.outputs =
        [(Stream.stderr, "got response code " ++ toString resp_status ++ "\n"),
         (Stream.stdout, dumps j ++ "\n")] ∧
      r.term = Term.normal ∧
      Term.exitStatus r.term = 0 := by
  intro r hr
  have hs := show_response_ok ⟨resp_status, body⟩ j hj
  rw [if_pos h4] at hs
  have step : r.outputs =
      [(Stream.stderr, "got response code " ++ toString resp_status ++ "\n"),
       (Stream.stdout, dumps j ++ "\n")] ∧ r.term = Term.normal := by
    simp only [List.mem_cons, List.not_mem_nil, or_false] at hr
    rcases hr with rfl | rfl | rfl
    · obtain ⟨ho, ht⟩ := submit_ok_response name start now interval
        action_url action_body token cb hab ⟨resp_status, body⟩
      rw [hs] at ho ht
      exact ⟨ho, ht⟩
    · obtain ⟨ho, ht⟩ := list_response token ⟨resp_status, body⟩
      rw [hs] at ho ht
      exact ⟨ho, ht⟩
    · obtain ⟨ho, ht⟩ := status_response u token ⟨resp_status, body⟩
      rw [hs] at ho ht
      exact ⟨ho, ht⟩
  exact ⟨step.1, step.2, by rw [step.2]; rfl⟩

/-- C4 witness: the theorem applied to the 404 response with body the
object mapping error to not found — standard output carries exactly that
object re-serialized, the error stream names the code, exit status 0. -/
theorem C4_error_status_witness :
    400 ≤ 404 ∧
    jsonLoads "\x7b\"error\": \"not found\"\x7d" =
      Except.ok (Json.obj [("error", Json.str "not found")]) ∧
    (list "abc" (Transport.response ⟨404, "\x7b\"error\": \"not found\"\x7d"⟩)).outputs =
      [(Stream.stderr, "got response code 404\n"),
       (Stream.stdout, "\x7b\"error\": \"not found\"\x7d\n")] := by
  refine ⟨by decide, rfl, ?_⟩
  have h := C4_error_status_prints_body_exits_zero 404 "\x7b\"error\": \"not found\"\x7d"
    (Json.obj [("error", Json.str "not found")]) (by decide) rfl
    "demo" "2020-01-01T00:00:00" "\x7b\x7d" "abc" none 60 exampleActionUrl
    (Json.obj []) rfl ⟨0⟩
  exact (h (list "abc" (Transport.response ⟨404, "\x7b\"error\": \"not found\"\x7d"⟩))
    (by simp)).1

/-- C6: the claim states that for every input string the URL validator
either fails with incomplete URL (no authority), fails naming the
offending scheme, or succeeds.  Counterexample: the input
http://[abc — an authority with an unmatched square bracket — makes
urlparse raise ValueError Invalid IPv6 URL, which URL.convert does not
catch: the validator neither fails through InvalidParameter nor
succeeds. -/
theorem C6_bracket_counterexample :
    URL.convert "http://[abc" = ConvertResult.valueError "Invalid IPv6 URL" ∧
    ¬ ((∃ m, URL.convert "http://[abc" = ConvertResult.failed m) ∨
       (∃ r, URL.convert "http://[abc" = ConvertResult.ok r)) := by
  have h : URL.convert "http://[abc" = ConvertResult.valueError "Invalid IPv6 URL" := rfl
  refine ⟨h, ?_⟩
  rintro (⟨m, hm⟩ | ⟨r, hr⟩)
  · rw [h] at hm
    exact ConvertResult.noConfusion hm
  · rw [h] at hr
    exact ConvertResult.noConfusion hr

/-- C6 amended: for every input string on which the URL parse completes
(authorities with mismatched square brackets instead raise an unhandled
ValueError), the validator fails with incomplete URL when the parsed
authority is empty; fails with a message naming the offending scheme
when the authority is present but the scheme is not exactly http or
https; and otherwise succeeds, returning the parsed structure whose
reconstructed URL is used verbatim as the callback_url of the submit
payload. -/
theorem C6_amended_url_validator (s : String) (r : ParseResult)
    (hp : urlparse s = Except.ok r) :
    (r.netloc = "" → URL.convert s = ConvertResult.failed "incomplete URL") ∧
    (r.netloc ≠ "" → r.scheme ≠ "http" → r.scheme ≠ "https" →
      URL.convert s = ConvertResult.failed
        ("invalid URL scheme (" ++ r.scheme ++ "). Only HTTP URLs are allowed") ∧
      ∃ p q, "invalid URL scheme (" ++ r.scheme ++ "). Only HTTP URLs are allowed" =
        p ++ r.scheme ++ q) ∧
    (r.netloc ≠ "" → (r.scheme = "http" ∨ r.scheme = "https") →
      URL.convert s = ConvertResult.ok r ∧
      ∀ (name : String) (start : Option String) (now : String) (interval : Int)
        (action_body : String) (cb : Json) (token : String) (tr : Transport),
        jsonLoads action_body = Except.ok cb →
        (submit name start now interval r action_body token tr).requests.map
            (fun rq => rq.jsonBody) =
          [some (submit_req_json name (start.getD now) interval r.geturl cb)]) := by
  have hc : URL.convert s =
      (if r.netloc = "" then ConvertResult.failed "incomplete URL"
       else if r.scheme ≠ "http" ∧ r.scheme ≠ "https" then
         ConvertResult.failed
           ("invalid URL scheme (" ++ r.scheme ++ "). Only HTTP URLs are allowed")
       else ConvertResult.ok r) := by
    unfold URL.convert
    rw [hp]
  refine ⟨?_, ?_, ?_⟩
  · intro hn
    rw [hc, if_pos hn]
  · intro hn hh hs
    rw [hc, if_neg hn, if_pos ⟨hh, hs⟩]
    exact ⟨rfl, "invalid URL scheme (", "). Only HTTP URLs are allowed", rfl⟩
  · intro hn hsc
    have hss : ¬ (r.scheme ≠ "http" ∧ r.scheme ≠ "https") := by
      rcases hsc with h | h <;> simp [h]
    rw [hc, if_neg hn, if_neg hss]
    refine ⟨rfl, ?_⟩
    intro name start now interval action_body cb token tr hab
    obtain ⟨hreq, -⟩ :=
      submit_ok_components name start now interval r action_body token cb hab tr
    rw [hreq]
    rfl

/-- C6 amended witness: the theorem applied to the valid callback URL
https://example.org/run, with its reconstruction reaching the submit
payload verbatim. -/
theorem C6_amended_witness :
    urlparse "https://example.org/run" = Except.ok exampleActionUrl ∧
    URL.convert "https://example.org/run" = ConvertResult.ok exampleActionUrl ∧
    (submit "demo" none "2020-01-01T00:00:00" 60 exampleActionUrl "\x7b\x7d" "abc"
        (Transport.response ⟨201, "\x7b\"job_id\": \"x\"\x7d"⟩)).requests.map
      (fun rq => rq.jsonBody) =
      [some (submit_req_json "demo" "2020-01-01T00:00:00" 60 "https://example.org/run"
        (Json.obj []))] := by
  have h := (C6_amended_url_validator "https://example.org/run" exampleActionUrl rfl).2.2
    (by decide) (Or.inr rfl)
  exact ⟨rfl, h.1, h.2 "demo" none "2020-01-01T00:00:00" 60 "\x7b\x7d" (Json.obj [])
    "abc" (Transport.response ⟨201, "\x7b\"job_id\": \"x\"\x7d"⟩) rfl⟩

/-- C7: an action body that is not syntactically valid JSON makes submit
fail before any network call — no request is issued and the token
provider is never consulted — with exit code 2 and a single error line
that names the action-body option and contains the underlying parse
error. -/
theorem C7_invalid_action_body_no_network (action_body : String) (e : JErr)
    (hab : jsonLoads action_body = Except.error e)
    (name now token : String) (start : Option String) (interval : Int)
    (action_url : ParseResult) (tr : Transport) :
    (submit name start now interval action_url action_body token tr).requests = [] ∧
    (submit name start now interval action_url action_body token tr).tokenFetches = 0 ∧
    (submit name start now interval action_url action_body token tr).term =
      Term.sysExit 2 ∧
    (submit name start now interval action_url action_body token tr).outputs =
      [(Stream.stderr, "Error: --action-body must parse into valid JSON; got error: " ++ jsonErrStr e.1 action_body e.2 ++ "\n")] ∧
    ∃ p q, "Error: --action-body must parse into valid JSON; got error: " ++
        jsonErrStr e.1 action_body e.2 =
      p ++ "action-body" ++ (q ++ jsonErrStr e.1 action_body e.2) := by
  have h := submit_err_components name start now interval action_url action_body
    token e hab tr
  rw [h]
  refine ⟨rfl, rfl, rfl, rfl,
    "Error: --", " must parse into valid JSON; got error: ", ?_⟩
  apply String.ext
  simp only [String.data_append, ← List.append_assoc]
  congr 1

/-- C7 witness: the theorem applied to the single-character action body
consisting of an opening brace. -/
theorem C7_witness :
    jsonLoads "\x7b" =
      Except.error ("Expecting property name enclosed in double quotes", 1) ∧
    (submit "demo" none "2020-01-01T00:00:00" 60 exampleActionUrl "\x7b" "abc"
      (Transport.response ⟨201, "\x7b\x7d"⟩)).requests = [] := by
  refine ⟨rfl, ?_⟩
  exact (C7_invalid_action_body_no_network "\x7b"
    ("Expecting property name enclosed in double quotes", 1) rfl "demo"
    "2020-01-01T00:00:00" "abc" none 60 exampleActionUrl
    (Transport.response ⟨201, "\x7b\x7d"⟩)).1

/-- C8: a job_id argument that does not parse as a UUID makes the status
command fail while make_context parses arguments: the usage-on-error
wrapper prints the usage text of status, the command body never runs, no
request is issued and the token provider is never consulted. -/
theorem C8_invalid_job_id_usage_path (t token : String) (tr : Transport)
    (h : pyUUIDParse t = none) :
    (run_status t token tr).requests = [] ∧
    (run_status t token tr).tokenFetches = 0 ∧
    (run_status t token tr).outputs =
      usage_failure_output status_usage (job_id_bad_value_message t) ∧
    (Stream.stdout, CommandUsage.usageText status_usage ++ "\n") ∈
      (run_status t token tr).outputs := by
  have hr : run_status t token tr =
      make_context_failure status_usage (job_id_bad_value_message t) := by
    unfold run_status
    rw [h]
  rw [hr]
  refine ⟨rfl, rfl, rfl, ?_⟩
  simp [make_context_failure, usage_failure_output]

/-- C8 witness: the theorem applied to the argument not-a-uuid. -/
theorem C8_witness :
    pyUUIDParse "not-a-uuid" = none ∧
    (run_status "not-a-uuid" "abc" (Transport.response ⟨200, "\x7b\x7d"⟩)).requests =
      [] := by
  exact ⟨rfl, (C8_invalid_job_id_usage_path "not-a-uuid" "abc"
    (Transport.response ⟨200, "\x7b\x7d"⟩) rfl).1⟩

/-- C9: with valid arguments and a token provider returning a given
token, each of the three commands issues exactly one request whose
header set is exactly the Authorization header carrying Bearer and that
token, and consults the provider exactly once. -/
theorem C9_bearer_header_fresh_token (token : String) (tr : Transport)
    (name now action_body : String) (start : Option String) (interval : Int)
    (action_url : ParseResult) (cb : Json)
    (hab : jsonLoads action_body = Except.ok cb) (u : UUID) :
    ∀ r ∈ [submit name start now interval action_url action_body token tr,
          list token tr, status u token tr],
      r.requests.map (fun rq => rq.headers) =
        [[("Authorization", "Bearer " ++ token)]] ∧
      r.tokenFetches = 1 := by
  intro r hr
  simp only [List.mem_cons, List.not_mem_nil, or_false] at hr
  rcases hr with rfl | rfl | rfl
  · obtain ⟨hreq, htok⟩ :=
      submit_ok_components name start now interval action_url action_body token cb hab tr
    rw [hreq]
    exact ⟨rfl, htok⟩
  · obtain ⟨hreq, htok⟩ := list_components token tr
    rw [hreq]
    exact ⟨rfl, htok⟩
  · obtain ⟨hreq, htok⟩ := status_components u token tr
    rw [hreq]
    exact ⟨rfl, htok⟩

/-- C9 witness: the theorem applied to the token abc on the list
command. -/
theorem C9_witness :
    jsonLoads "\x7b\x7d" = Except.ok (Json.obj []) ∧
    (list "abc" (Transport.response ⟨200, "[]"⟩)).requests.map (fun rq => rq.headers) =
      [[("Authorization", "Bearer abc")]] := by
  refine ⟨rfl, ?_⟩
  have h := C9_bearer_header_fresh_token "abc" (Transport.response ⟨200, "[]"⟩)
    "demo" "2020-01-01T00:00:00" "\x7b\x7d" none 60 exampleActionUrl (Json.obj [])
    rfl ⟨0⟩
  exact (h (list "abc" (Transport.response ⟨200, "[]"⟩)) (by simp)).1

/-- C10: every accepted job_id text yields the request URL formed by
appending the canonical rendering of the parsed UUID — 32 lowercase
hexadecimal digits in five hyphen-separated groups of 8-4-4-4-12 — to
the jobs endpoint, so any two spellings of the same UUID produce
identical runs. -/
theorem C10_status_url_canonical_uuid (s1 s2 : String) (u : UUID)
    (token : String) (tr : Transport)
    (h1 : pyUUIDParse s1 = some u) (h2 : pyUUIDParse s2 = some u) :
    (run_status s1 token tr).requests.map (fun rq => rq.url) =
      [jobs_url ++ u.str] ∧
    run_status s1 token tr = run_status s2 token tr ∧
    ∃ a b c d e : List Char,
      (u.str).toList = a ++ '-' :: (b ++ '-' :: (c ++ '-' :: (d ++ '-' :: e))) ∧
      a.length = 8 ∧ b.length = 4 ∧ c.length = 4 ∧ d.length = 4 ∧ e.length = 12 ∧
      ∀ ch ∈ a ++ b ++ c ++ d ++ e, ch ∈ "0123456789abcdef".toList := by
  have hr1 : run_status s1 token tr = status u token tr := by
    unfold run_status
    rw [h1]
  have hr2 : run_status s2 token tr = status u token tr := by
    unfold run_status
    rw [h2]
  refine ⟨?_, hr1.trans hr2.symm, ?_⟩
  · rw [hr1]
    obtain ⟨hreq, -⟩ := status_components u token tr
    rw [hreq]
    rfl
  · refine ⟨(hex32 u.int).take 8, ((hex32 u.int).drop 8).take 4,
      ((hex32 u.int).drop 12).take 4, ((hex32 u.int).drop 16).take 4,
      (hex32 u.int).drop 20, ?_, ?_, ?_, ?_, ?_, ?_, ?_⟩
    · rfl
    · simp [List.length_take, hex32_length]
    · simp [List.length_take, List.length_drop, hex32_length]
    · simp [List.length_take, List.length_drop, hex32_length]
    · simp [List.length_take, List.length_drop, hex32_length]
    · simp [List.length_drop, hex32_length]
    · intro ch hch
      apply hex32_mem u.int
      simp only [List.append_assoc, List.mem_append] at hch
      rcases hch with hch | hch | hch | hch | hch
      · exact List.take_subset _ _ hch
      · exact List.drop_subset _ _ (List.take_subset _ _ hch)
      · exact List.drop_subset _ _ (List.take_subset _ _ hch)
      · exact List.drop_subset _ _ (List.take_subset _ _ hch)
      · exact List.drop_subset _ _ hch

/-- C10 witness: the theorem applied to two spellings of one UUID — the
canonical hyphenated text and the braced unhyphenated text. -/
theorem C10_witness :
    pyUUIDParse "12345678-1234-5678-1234-567812345678" =
      some ⟨0x12345678123456781234567812345678⟩ ∧
    pyUUIDParse "\x7b12345678123456781234567812345678\x7d" =
      some ⟨0x12345678123456781234567812345678⟩ ∧
    run_status "12345678-1234-5678-1234-567812345678" "abc"
        (Transport.response ⟨200, "\x7b\x7d"⟩) =
      run_status "\x7b12345678123456781234567812345678\x7d" "abc"
        (Transport.response ⟨200, "\x7b\x7d"⟩) := by
  refine ⟨rfl, rfl, ?_⟩
  exact (C10_status_url_canonical_uuid "12345678-1234-5678-1234-567812345678"
    "\x7b12345678123456781234567812345678\x7d"
    ⟨0x12345678123456781234567812345678⟩ "abc"
    (Transport.response ⟨200, "\x7b\x7d"⟩) rfl rfl).2.1

end timer_cli
